import Mathlib

/-!
Shallow embedding of the sprite animation / movement subsystem of
`src/InvasionRCT2.py` (classes `SpriteInfo`, `SpriteAnimator`, `DesktopPeep`).

Modelling conventions:
* Python ints are `Int` (times in milliseconds, pixel dimensions, metadata
  fields); Python floats used for positions/velocities are `ℚ` (the program
  only ever adds and clamps them, so rationals embed the values faithfully).
* `random.randint` / `random.choice` results are explicit parameters of the
  functions that consume them; theorems quantify over them, constrained to
  the range the library guarantees.
* `time.time()*1000` readings are explicit `Int` parameters.
* The metadata dict `sprite_details` is an association list, latest insert
  first, looked up with `List.lookup` (first hit wins, matching dict
  overwrite semantics).
* A CSV field is modelled by the two observations the code makes of it:
  whether the raw text starts with the comment marker, and the result of
  `int(field.strip())` (`none` when that call raises).
* `QPixmap` frames are modelled by their pixel dimensions; the drawing /
  scaling pipeline of `load_direction_frames` is abstracted as a parameter
  `mkFrame : SpriteInfo → Frame` (the Qt painting calls are external).
-/

namespace InvasionRCT2

/-- Metadata row for a single sprite, as in class `SpriteInfo`. -/
structure SpriteInfo where
  sheet_num : Int
  sprite_index : Int
  sprite_id : Int
  width : Int
  height : Int
  x_offset : Int
  y_offset : Int
  sheet_x : Int
  sheet_y : Int
deriving DecidableEq

/-- A loaded frame, reduced to the pixel size of its pixmap. -/
structure Frame where
  width : Int
  height : Int
deriving DecidableEq

/-- One CSV field, by the two observations the loader makes of it:
`startsHash` models `field.startswith('#')` on the raw text and `asInt`
models `int(field.strip())`, `none` when that raises `ValueError`. -/
structure CsvField where
  startsHash : Bool
  asInt : Option Int
deriving DecidableEq

/-- `int(row[i].strip())`: `none` when the index is absent or parsing fails. -/
def fieldInt (row : List CsvField) (i : Nat) : Option Int :=
  (row.get? i).bind CsvField.asInt

/-- Body of the row loop of `load_sprite_info` (lines 62-81): skip empty
rows and rows whose first field starts with `#`; for rows of at least 11
fields parse fields 0,1,2,4,5,6,7,9,10 as ints (any failure skips the row);
insert into the table only when `0 < width < 4096 and 0 < height < 4096`. -/
def processRow (details : List (Int × SpriteInfo)) (row : List CsvField) :
    List (Int × SpriteInfo) :=
  match row.head? with
  | none => details
  | some f0 =>
    if f0.startsHash then details
    else if 11 ≤ row.length then
      match fieldInt row 0, fieldInt row 1, fieldInt row 2, fieldInt row 4,
            fieldInt row 5, fieldInt row 6, fieldInt row 7, fieldInt row 9,
            fieldInt row 10 with
      | some sheet_num, some sprite_index, some sprite_id, some width,
        some height, some x_offset, some y_offset, some sheet_x, some sheet_y =>
        if 0 < width ∧ width < 4096 ∧ 0 < height ∧ height < 4096 then
          (sprite_id, ⟨sheet_num, sprite_index, sprite_id, width, height,
                       x_offset, y_offset, sheet_x, sheet_y⟩) :: details
        else details
      | _, _, _, _, _, _, _, _, _ => details
    else details

/-- `SpriteAnimator.load_sprite_info` (lines 58-85).  The file is `none`
when `open` raises `FileNotFoundError` (result `false`, empty table);
otherwise each row is processed in order and the result is
`len(self.sprite_details) > 0`. -/
def load_sprite_info (file : Option (List (List CsvField))) :
    List (Int × SpriteInfo) × Bool :=
  match file with
  | none => ([], false)
  | some rows =>
    let details := rows.foldl processRow []
    (details, decide (0 < details.length))

/-- A row that `load_sprite_info` turns into a table entry: non-empty, not a
comment, at least 11 fields, the nine used fields (indices 0,1,2,4,5,6,7,9,10)
parse as ints, and width/height lie strictly inside `(0, 4096)`. -/
def rowValid (row : List CsvField) : Bool :=
  match row.head? with
  | none => false
  | some f0 =>
    if f0.startsHash then false
    else if 11 ≤ row.length then
      match fieldInt row 0, fieldInt row 1, fieldInt row 2, fieldInt row 4,
            fieldInt row 5, fieldInt row 6, fieldInt row 7, fieldInt row 9,
            fieldInt row 10 with
      | some _, some _, some _, some width, some height, some _, some _,
        some _, some _ =>
        decide (0 < width ∧ width < 4096 ∧ 0 < height ∧ height < 4096)
      | _, _, _, _, _, _, _, _, _ => false
    else false

/-- Mutable state of `SpriteAnimator` (lines 38-55).  `direction_frames`
models the dict lookup `self.direction_frames.get(d, [])` directly as a
function (its keys are always exactly 0..3, with default `[]`).
`scale_factor` and the pixmap caches live outside this record: the frame
pipeline is abstracted by `mkFrame` at load time. -/
structure AnimatorState where
  direction_frames : Int → List Frame
  current_direction : Int
  current_frame_index : Nat
  frame_duration : Int
  last_frame_time : Int
  pos_x : ℚ
  pos_y : ℚ
  velocity_x : ℚ
  velocity_y : ℚ
  move_speed : ℚ
  is_moving : Bool
  next_direction_change_time : Int
  max_canvas_width : ℚ
  max_canvas_height : ℚ

/-- `SpriteAnimator.__init__` field values (lines 38-55). -/
def initAnimator : AnimatorState where
  direction_frames := fun _ => []
  current_direction := 0
  current_frame_index := 0
  frame_duration := 100
  last_frame_time := 0
  pos_x := 0
  pos_y := 0
  velocity_x := 0
  velocity_y := 0
  move_speed := 1
  is_moving := false
  next_direction_change_time := 0
  max_canvas_width := 0
  max_canvas_height := 0

/-- `max(xs or [0])`: the Python maximum of a list, 0 when it is empty. -/
def pyMax (xs : List ℚ) : ℚ :=
  match xs with
  | [] => 0
  | x :: rest => rest.foldl max x

/-- Frames loaded for one direction by the inner loop of
`load_direction_frames` (lines 111-134): for each `i < frames_per_direction`
the slot `base_sprite_id + dir_idx + i*4` is looked up in the metadata table,
skipped when absent or when its sheet is not in the sheet cache (`sheets`),
and otherwise contributes the frame built from its metadata. -/
def framesFor (details : List (Int × SpriteInfo)) (sheets : Int → Bool)
    (mkFrame : SpriteInfo → Frame) (base_sprite_id : Int)
    (frames_per_direction : Nat) (dir_idx : Int) : List Frame :=
  (List.range frames_per_direction).filterMap fun i : Nat =>
    match details.lookup (base_sprite_id + dir_idx + (i : Int) * 4) with
    | none => none
    | some info => if sheets info.sheet_num then some (mkFrame info) else none

/-- `SpriteAnimator.load_direction_frames` (lines 100-138), with the chosen
base id abstracted by a choice function over the candidate list (the code
calls `random.choice(base_sprite_ids)`).  Returns the direction-frames
table, the maximum canvas width and the maximum canvas height. -/
def load_direction_frames (details : List (Int × SpriteInfo))
    (sheets : Int → Bool) (mkFrame : SpriteInfo → Frame)
    (choice : List Int → Int) (base_sprite_ids : List Int)
    (frames_per_direction : Nat) : (Int → List Frame) × ℚ × ℚ :=
  let base_sprite_id := choice base_sprite_ids
  let f : Int → List Frame := fun d =>
    if 0 ≤ d ∧ d < 4 then
      framesFor details sheets mkFrame base_sprite_id frames_per_direction d
    else []
  let allFrames := f 0 ++ f 1 ++ f 2 ++ f 3
  (f, pyMax (allFrames.map fun fr => (fr.width : ℚ)),
      pyMax (allFrames.map fun fr => (fr.height : ℚ)))

/-- `SpriteAnimator.set_direction` (lines 148-159). -/
def set_direction (s : AnimatorState) (direction : Int) : AnimatorState :=
  let s1 := { s with current_direction := direction }
  let speed := s1.move_speed
  if direction = 0 then { s1 with velocity_x := speed, velocity_y := -speed }
  else if direction = 1 then { s1 with velocity_x := speed, velocity_y := speed }
  else if direction = 2 then { s1 with velocity_x := -speed, velocity_y := speed }
  else if direction = 3 then { s1 with velocity_x := -speed, velocity_y := -speed }
  else s1

/-- `SpriteAnimator.setup_walking` (lines 141-146).  `rx`, `ry` stand for
the results of `random.randint(0, screen_dim - max_canvas_dim)` (used only
when the corresponding start coordinate is `none`), `rdir` for
`random.randint(0, 3)`, `rdelay` for `random.randint(1000, 3000)` and `now`
for `int(time.time()*1000)`. -/
def setup_walking (s : AnimatorState) (rx ry : ℚ)
    (start_x start_y : Option ℚ) (rdir : Int) (rdelay : Int) (now : Int) :
    AnimatorState :=
  let s1 := { s with pos_x := start_x.getD rx, pos_y := start_y.getD ry }
  let s2 := set_direction s1 rdir
  { s2 with is_moving := true, next_direction_change_time := now + rdelay }

/-- Frame-animation step of `update` (lines 168-172). -/
def frameStep (s : AnimatorState) (current_time : Int) : AnimatorState :=
  let frames := s.direction_frames s.current_direction
  if frames.length ≠ 0 ∧ s.frame_duration ≤ current_time - s.last_frame_time then
    { s with current_frame_index := (s.current_frame_index + 1) % frames.length,
             last_frame_time := current_time }
  else s

/-- Random-direction-change step of `update` (lines 174-179).  `rdir`
stands for `random.choice([0, 1, 2, 3])` and `rdelay` for
`random.randint(1000, 3000)`. -/
def dirStep (s : AnimatorState) (current_time : Int) (rdir rdelay : Int) :
    AnimatorState :=
  if s.next_direction_change_time ≤ current_time then
    let s1 := if rdir ≠ s.current_direction then set_direction s rdir else s
    { s1 with next_direction_change_time := current_time + rdelay }
  else s

/-- `SpriteAnimator.update` (lines 162-195).  `current_time` stands for
`int(time.time()*1000)`, `rdir`/`rdelay` for the randomness of the
direction-change branch and `rbounce` for `random.choice([0,1,2,3])` in the
bounce branch. -/
def update (s : AnimatorState) (screen_width screen_height : ℚ)
    (current_time : Int) (rdir rdelay rbounce : Int) : AnimatorState :=
  if s.is_moving then
    let s1 := frameStep s current_time
    let s2 := dirStep s1 current_time rdir rdelay
    let s3 := { s2 with pos_x := s2.pos_x + s2.velocity_x,
                        pos_y := s2.pos_y + s2.velocity_y }
    let bounced :=
      s3.pos_x < 0 ∨ screen_width - s3.max_canvas_width < s3.pos_x ∨
      s3.pos_y < 0 ∨ screen_height - s3.max_canvas_height < s3.pos_y
    let s4 := if bounced then set_direction s3 rbounce else s3
    { s4 with
      pos_x := max 0 (min s4.pos_x (screen_width - s4.max_canvas_width)),
      pos_y := max 0 (min s4.pos_y (screen_height - s4.max_canvas_height)) }
  else s

/-- `SpriteAnimator.get_current_frame` (lines 197-201).  The Python body
evaluates `frames[self.current_frame_index]`, which raises `IndexError`
when the index is out of range; that partiality is the `Option.none` of
`List.get?` in the non-empty case. -/
def get_current_frame (s : AnimatorState) : Option (Option Frame) :=
  let frames := s.direction_frames s.current_direction
  if frames.length = 0 then some none
  else (frames.get? s.current_frame_index).map some

/-- One observed `update` call: the wall-clock reading and the three
random draws the call may consume. -/
structure UpdEvent where
  time : Int
  rdir : Int
  rdelay : Int
  rbounce : Int
deriving DecidableEq

/-- A finite sequence of `update(screen_width, screen_height)` calls. -/
def runUpdates (s : AnimatorState) (screen_width screen_height : ℚ)
    (evs : List UpdEvent) : AnimatorState :=
  evs.foldl (fun st e => update st screen_width screen_height
    e.time e.rdir e.rdelay e.rbounce) s

/-- `SpriteAnimator.load_spritesheet` (lines 88-97): succeeds iff, for every
distinct sheet number referenced by the loaded metadata, the image asset
loads (`avail`); it returns `False` at the first failure.  Quantifying over
the referenced infos is equivalent to quantifying over the set of their
sheet numbers. -/
def load_spritesheet (details : List (Int × SpriteInfo))
    (avail : Int → Bool) : Bool :=
  details.all fun p => avail p.2.sheet_num

/-- State of a `DesktopPeep` (lines 207-248): either an animator-backed
entity or the fallback colored square with its own `x, y, dx, dy`. -/
structure PeepState where
  use_fallback : Bool
  x : Int
  y : Int
  dx : Int
  dy : Int
  animator : AnimatorState

/-- `DesktopPeep.__init__` (lines 208-227).  `file` is the metadata file
(`none` when missing), `avail` tells which sheet assets load, `rx ry rdx
rdy` stand for the fallback draws `random.randint(0,800)`,
`random.randint(0,600)` and the two `random.choice([-2,-1,1,2])`. -/
def peepInit (file : Option (List (List CsvField))) (avail : Int → Bool)
    (mkFrame : SpriteInfo → Frame) (choice : List Int → Int)
    (base_sprite_ids : List Int) (rx ry rdx rdy : Int) : PeepState :=
  let loaded := load_sprite_info file
  if loaded.2 && load_spritesheet loaded.1 avail then
    let frames := load_direction_frames loaded.1 avail mkFrame choice
      base_sprite_ids 5
    { use_fallback := false, x := 0, y := 0, dx := 0, dy := 0,
      animator := { initAnimator with
        direction_frames := frames.1,
        max_canvas_width := frames.2.1,
        max_canvas_height := frames.2.2,
        move_speed := 1/2 } }
  else
    { use_fallback := true, x := rx, y := ry, dx := rdx, dy := rdy,
      animator := initAnimator }

/-- `DesktopPeep.setup` (lines 229-233); the fallback branch only moves the
graphics item. -/
def peep_setup (p : PeepState) (rx ry : ℚ) (rdir rdelay now : Int) :
    PeepState :=
  if p.use_fallback then p
  else { p with animator :=
          setup_walking p.animator rx ry none none rdir rdelay now }

/-- `DesktopPeep.update` (lines 235-248).  The fallback branch is the
simple bounce physics of lines 237-240 (note the hard-coded box size 64). -/
def peep_update (p : PeepState) (screen_width screen_height : Int)
    (t rdir rdelay rbounce : Int) : PeepState :=
  if p.use_fallback then
    let x := p.x + p.dx
    let y := p.y + p.dy
    let dx := if x < 0 ∨ screen_width < x + 64 then -p.dx else p.dx
    let dy := if y < 0 ∨ screen_height < y + 64 then -p.dy else p.dy
    { p with x := x, y := y, dx := dx, dy := dy }
  else
    let a := update p.animator (screen_width : ℚ) (screen_height : ℚ)
      t rdir rdelay rbounce
    { p with animator := a }

/-- A tick crosses an axis bound when the coordinate was on one side of the
bound before the move and beyond it after: either it crossed 0 downward, or
the trailing edge (coordinate + 64) crossed the screen dimension upward. -/
def crossesAxis (before after screen_dim : Int) : Prop :=
  (0 ≤ before ∧ after < 0) ∨
  (before + 64 ≤ screen_dim ∧ screen_dim < after + 64)

instance (b a d : Int) : Decidable (crossesAxis b a d) := by
  unfold crossesAxis; infer_instance

/-! ### Concrete fixtures used to instantiate the theorems -/

/-- A moving animator with five frames in direction 0 and none elsewhere
(all other fields as in `__init__`). -/
def fiveFrameAnimator : AnimatorState :=
  { initAnimator with
    is_moving := true
    direction_frames := fun d =>
      if d = 0 then List.replicate 5 ⟨10, 10⟩ else [] }

/-- A moving animator whose next direction change is scheduled at 500 ms
(other fields as in `__init__`). -/
def pendingChangeAnimator : AnimatorState :=
  { initAnimator with
    is_moving := true
    next_direction_change_time := 500 }

/-- The frame dimensions produced by the unscaled canvas pipeline
(`scale_factor == 1.0`): the canvas is created with the metadata width and
height (line 122). -/
def dimsFrame (info : SpriteInfo) : Frame :=
  ⟨info.width, info.height⟩

/-- A metadata table holding one 10×10 sprite with id 100 on sheet 0. -/
def wideSpriteDetails : List (Int × SpriteInfo) :=
  [(100, ⟨0, 0, 100, 10, 10, 0, 0, 0, 0⟩)]

/-- The animator obtained by loading `wideSpriteDetails` with base id 100:
one 10×10 frame in direction 0, so a 10×10 bounding box. -/
def oversizedAnimator : AnimatorState :=
  let L := load_direction_frames wideSpriteDetails (fun _ => true) dimsFrame
    (fun l => l.headD 0) [100] 5
  { initAnimator with
    direction_frames := L.1
    max_canvas_width := L.2.1
    max_canvas_height := L.2.2 }

/-- A metadata table giving base id 100 two frames in direction 0
(ids 100 and 104) but only one frame in direction 1 (id 101). -/
def unevenSpriteDetails : List (Int × SpriteInfo) :=
  [(100, ⟨0, 0, 100, 8, 8, 0, 0, 0, 0⟩),
   (104, ⟨0, 1, 104, 8, 8, 0, 0, 8, 0⟩),
   (101, ⟨0, 2, 101, 8, 8, 0, 0, 16, 0⟩)]

/-- The animator obtained by loading `unevenSpriteDetails` with base id
100: two frames in direction 0, one frame in direction 1. -/
def unevenAnimator : AnimatorState :=
  let L := load_direction_frames unevenSpriteDetails (fun _ => true)
    dimsFrame (fun l => l.headD 0) [100] 5
  { initAnimator with
    direction_frames := L.1
    max_canvas_width := L.2.1
    max_canvas_height := L.2.2 }

/-- A fallback peep that starts already overlapping the right screen edge
of an 800-wide screen: `x = 799` is reachable, since the fallback
constructor draws `x` from `randint(0, 800)` regardless of screen size. -/
def edgeFallbackPeep : PeepState :=
  { use_fallback := true, x := 799, y := 100, dx := 1, dy := 1,
    animator := initAnimator }

/-- A fallback peep comfortably inside an 800×600 screen. -/
def insideFallbackPeep : PeepState :=
  { use_fallback := true, x := 100, y := 200, dx := 2, dy := -1,
    animator := initAnimator }

/-- A valid 11-field metadata row: sheet 0, index 0, id 100, size 10×10,
offsets 0, sheet origin (0, 0). -/
def validRow : List CsvField :=
  [⟨false, some 0⟩, ⟨false, some 0⟩, ⟨false, some 100⟩, ⟨false, some 0⟩,
   ⟨false, some 10⟩, ⟨false, some 10⟩, ⟨false, some 0⟩, ⟨false, some 0⟩,
   ⟨false, some 0⟩, ⟨false, some 0⟩, ⟨false, some 0⟩]

/-- A comment row (first field starts with the `#` marker). -/
def commentRow : List CsvField :=
  [⟨true, none⟩]

/-- An 11-field row whose unused fields 3 and 8 do not parse as integers
(for example the texts of a hand-edited file), while all nine fields the
loader actually reads are valid: sheet 0, index 0, id 100, size 10×10. -/
def badFieldRow : List CsvField :=
  [⟨false, some 0⟩, ⟨false, some 0⟩, ⟨false, some 100⟩, ⟨false, none⟩,
   ⟨false, some 10⟩, ⟨false, some 10⟩, ⟨false, some 0⟩, ⟨false, some 0⟩,
   ⟨false, none⟩, ⟨false, some 0⟩, ⟨false, some 0⟩]

/-! ### Field-preservation lemmas for the animator operations -/

theorem set_direction_dframes (s : AnimatorState) (d : Int) :
    (set_direction s d).direction_frames = s.direction_frames := by
  unfold set_direction; split_ifs <;> rfl

theorem set_direction_dir (s : AnimatorState) (d : Int) :
    (set_direction s d).current_direction = d := by
  unfold set_direction; split_ifs <;> rfl

theorem set_direction_index (s : AnimatorState) (d : Int) :
    (set_direction s d).current_frame_index = s.current_frame_index := by
  unfold set_direction; split_ifs <;> rfl

theorem set_direction_lft (s : AnimatorState) (d : Int) :
    (set_direction s d).last_frame_time = s.last_frame_time := by
  unfold set_direction; split_ifs <;> rfl

theorem set_direction_fdur (s : AnimatorState) (d : Int) :
    (set_direction s d).frame_duration = s.frame_duration := by
  unfold set_direction; split_ifs <;> rfl

theorem set_direction_pos_x (s : AnimatorState) (d : Int) :
    (set_direction s d).pos_x = s.pos_x := by
  unfold set_direction; split_ifs <;> rfl

theorem set_direction_pos_y (s : AnimatorState) (d : Int) :
    (set_direction s d).pos_y = s.pos_y := by
  unfold set_direction; split_ifs <;> rfl

theorem set_direction_speed (s : AnimatorState) (d : Int) :
    (set_direction s d).move_speed = s.move_speed := by
  unfold set_direction; split_ifs <;> rfl

theorem set_direction_moving (s : AnimatorState) (d : Int) :
    (set_direction s d).is_moving = s.is_moving := by
  unfold set_direction; split_ifs <;> rfl

theorem set_direction_ndct (s : AnimatorState) (d : Int) :
    (set_direction s d).next_direction_change_time =
      s.next_direction_change_time := by
  unfold set_direction; split_ifs <;> rfl

theorem set_direction_mcw (s : AnimatorState) (d : Int) :
    (set_direction s d).max_canvas_width = s.max_canvas_width := by
  unfold set_direction; split_ifs <;> rfl

theorem set_direction_mch (s : AnimatorState) (d : Int) :
    (set_direction s d).max_canvas_height = s.max_canvas_height := by
  unfold set_direction; split_ifs <;> rfl

theorem frameStep_dframes (s : AnimatorState) (t : Int) :
    (frameStep s t).direction_frames = s.direction_frames := by
  unfold frameStep; dsimp only; split_ifs <;> rfl

theorem frameStep_dir (s : AnimatorState) (t : Int) :
    (frameStep s t).current_direction = s.current_direction := by
  unfold frameStep; dsimp only; split_ifs <;> rfl

theorem frameStep_fdur (s : AnimatorState) (t : Int) :
    (frameStep s t).frame_duration = s.frame_duration := by
  unfold frameStep; dsimp only; split_ifs <;> rfl

theorem frameStep_pos_x (s : AnimatorState) (t : Int) :
    (frameStep s t).pos_x = s.pos_x := by
  unfold frameStep; dsimp only; split_ifs <;> rfl

theorem frameStep_pos_y (s : AnimatorState) (t : Int) :
    (frameStep s t).pos_y = s.pos_y := by
  unfold frameStep; dsimp only; split_ifs <;> rfl

theorem frameStep_vel_x (s : AnimatorState) (t : Int) :
    (frameStep s t).velocity_x = s.velocity_x := by
  unfold frameStep; dsimp only; split_ifs <;> rfl

theorem frameStep_vel_y (s : AnimatorState) (t : Int) :
    (frameStep s t).velocity_y = s.velocity_y := by
  unfold frameStep; dsimp only; split_ifs <;> rfl

theorem frameStep_speed (s : AnimatorState) (t : Int) :
    (frameStep s t).move_speed = s.move_speed := by
  unfold frameStep; dsimp only; split_ifs <;> rfl

theorem frameStep_moving (s : AnimatorState) (t : Int) :
    (frameStep s t).is_moving = s.is_moving := by
  unfold frameStep; dsimp only; split_ifs <;> rfl

theorem frameStep_ndct (s : AnimatorState) (t : Int) :
    (frameStep s t).next_direction_change_time =
      s.next_direction_change_time := by
  unfold frameStep; dsimp only; split_ifs <;> rfl

theorem frameStep_mcw (s : AnimatorState) (t : Int) :
    (frameStep s t).max_canvas_width = s.max_canvas_width := by
  unfold frameStep; dsimp only; split_ifs <;> rfl

theorem frameStep_mch (s : AnimatorState) (t : Int) :
    (frameStep s t).max_canvas_height = s.max_canvas_height := by
  unfold frameStep; dsimp only; split_ifs <;> rfl

theorem dirStep_dframes (s : AnimatorState) (t a b : Int) :
    (dirStep s t a b).direction_frames = s.direction_frames := by
  unfold dirStep; split_ifs <;> simp [set_direction_dframes]

theorem dirStep_index (s : AnimatorState) (t a b : Int) :
    (dirStep s t a b).current_frame_index = s.current_frame_index := by
  unfold dirStep; split_ifs <;> simp [set_direction_index]

theorem dirStep_lft (s : AnimatorState) (t a b : Int) :
    (dirStep s t a b).last_frame_time = s.last_frame_time := by
  unfold dirStep; split_ifs <;> simp [set_direction_lft]

theorem dirStep_fdur (s : AnimatorState) (t a b : Int) :
    (dirStep s t a b).frame_duration = s.frame_duration := by
  unfold dirStep; split_ifs <;> simp [set_direction_fdur]

theorem dirStep_pos_x (s : AnimatorState) (t a b : Int) :
    (dirStep s t a b).pos_x = s.pos_x := by
  unfold dirStep; split_ifs <;> simp [set_direction_pos_x]

theorem dirStep_pos_y (s : AnimatorState) (t a b : Int) :
    (dirStep s t a b).pos_y = s.pos_y := by
  unfold dirStep; split_ifs <;> simp [set_direction_pos_y]

theorem dirStep_speed (s : AnimatorState) (t a b : Int) :
    (dirStep s t a b).move_speed = s.move_speed := by
  unfold dirStep; split_ifs <;> simp [set_direction_speed]

theorem dirStep_moving (s : AnimatorState) (t a b : Int) :
    (dirStep s t a b).is_moving = s.is_moving := by
  unfold dirStep; split_ifs <;> simp [set_direction_moving]

theorem dirStep_mcw (s : AnimatorState) (t a b : Int) :
    (dirStep s t a b).max_canvas_width = s.max_canvas_width := by
  unfold dirStep; split_ifs <;> simp [set_direction_mcw]

theorem dirStep_mch (s : AnimatorState) (t a b : Int) :
    (dirStep s t a b).max_canvas_height = s.max_canvas_height := by
  unfold dirStep; split_ifs <;> simp [set_direction_mch]

theorem dirStep_ndct_due (s : AnimatorState) (t a b : Int)
    (h : s.next_direction_change_time ≤ t) :
    (dirStep s t a b).next_direction_change_time = t + b := by
  unfold dirStep; dsimp only; rw [if_pos h]

theorem update_mcw (s : AnimatorState) (sw sh : ℚ) (t a b c : Int) :
    (update s sw sh t a b c).max_canvas_width = s.max_canvas_width := by
  unfold update
  split_ifs with h
  · simp [apply_ite AnimatorState.max_canvas_width, set_direction_mcw,
      dirStep_mcw, frameStep_mcw]
  · rfl

theorem update_mch (s : AnimatorState) (sw sh : ℚ) (t a b c : Int) :
    (update s sw sh t a b c).max_canvas_height = s.max_canvas_height := by
  unfold update
  split_ifs with h
  · simp [apply_ite AnimatorState.max_canvas_height, set_direction_mch,
      dirStep_mch, frameStep_mch]
  · rfl

theorem update_moving (s : AnimatorState) (sw sh : ℚ) (t a b c : Int) :
    (update s sw sh t a b c).is_moving = s.is_moving := by
  unfold update
  split_ifs with h
  · simp [apply_ite AnimatorState.is_moving, set_direction_moving,
      dirStep_moving, frameStep_moving]
  · rfl

theorem dirStep_not_due (s : AnimatorState) (t a b : Int)
    (h : t < s.next_direction_change_time) : dirStep s t a b = s := by
  unfold dirStep; dsimp only; rw [if_neg (not_le.mpr h)]

theorem setup_walking_ndct (s : AnimatorState) (rx ry : ℚ)
    (start_x start_y : Option ℚ) (rdir rdelay now : Int) :
    (setup_walking s rx ry start_x start_y rdir rdelay now).next_direction_change_time = now + rdelay := by
  unfold setup_walking; dsimp only

theorem update_ndct_due (s : AnimatorState) (sw sh : ℚ) (t a b c : Int)
    (hmv : s.is_moving = true) (hdue : s.next_direction_change_time ≤ t) :
    (update s sw sh t a b c).next_direction_change_time = t + b := by
  have hd : (frameStep s t).next_direction_change_time ≤ t := by
    rw [frameStep_ndct]; exact hdue
  simp only [update, hmv, if_true]
  dsimp only
  simp [apply_ite AnimatorState.next_direction_change_time, set_direction_ndct,
    dirStep_ndct_due (frameStep s t) t a b hd]

/-! ### Claim theorems -/

/-- C9: `set_direction(d)` sets `current_direction` to `d` and the velocity
to the diagonal with sign pattern (+,-), (+,+), (-,+), (-,-) for
d = 0, 1, 2, 3, each component of magnitude `move_speed`. -/
theorem C9_set_direction_diagonal (s : AnimatorState) (d : Int)
    (hd : d = 0 ∨ d = 1 ∨ d = 2 ∨ d = 3) (hs : 0 ≤ s.move_speed) :
    (set_direction s d).current_direction = d ∧
    |(set_direction s d).velocity_x| = s.move_speed ∧
    |(set_direction s d).velocity_y| = s.move_speed ∧
    (set_direction s d).velocity_x =
      (if d = 0 ∨ d = 1 then s.move_speed else -s.move_speed) ∧
    (set_direction s d).velocity_y =
      (if d = 1 ∨ d = 2 then s.move_speed else -s.move_speed) := by
  rcases hd with rfl | rfl | rfl | rfl <;>
    simp [set_direction, abs_of_nonneg hs]

/-- Witness for C9 at `initAnimator` and direction 2. -/
theorem C9_set_direction_diagonal_witness :
    (set_direction initAnimator 2).current_direction = 2 ∧
    |(set_direction initAnimator 2).velocity_x| = initAnimator.move_speed ∧
    |(set_direction initAnimator 2).velocity_y| = initAnimator.move_speed ∧
    (set_direction initAnimator 2).velocity_x =
      (if (2 : Int) = 0 ∨ (2 : Int) = 1 then initAnimator.move_speed
       else -initAnimator.move_speed) ∧
    (set_direction initAnimator 2).velocity_y =
      (if (2 : Int) = 1 ∨ (2 : Int) = 2 then initAnimator.move_speed
       else -initAnimator.move_speed) :=
  C9_set_direction_diagonal initAnimator 2 (by norm_num)
    (by norm_num [initAnimator])

/-- C8: both places that schedule the next direction change
(`setup_walking` and the direction-change branch of `update`, the latter
reached when the animator is moving and the previous deadline has passed)
set a timestamp in `[now + 1000, now + 3000]` relative to the wall-clock
reading they use, hence strictly in the future. -/
theorem C8_schedule_in_future (s : AnimatorState) (rx ry : ℚ)
    (start_x start_y : Option ℚ) (rdir rdelay now : Int)
    (sw sh : ℚ) (t rdir2 rdelay2 rbounce : Int)
    (h1 : 1000 ≤ rdelay) (h2 : rdelay ≤ 3000)
    (h3 : 1000 ≤ rdelay2) (h4 : rdelay2 ≤ 3000)
    (hmv : s.is_moving = true) (hdue : s.next_direction_change_time ≤ t) :
    (let S := setup_walking s rx ry start_x start_y rdir rdelay now
     now + 1000 ≤ S.next_direction_change_time ∧
       S.next_direction_change_time ≤ now + 3000 ∧
       now < S.next_direction_change_time) ∧
    (let U := update s sw sh t rdir2 rdelay2 rbounce
     t + 1000 ≤ U.next_direction_change_time ∧
       U.next_direction_change_time ≤ t + 3000 ∧
       t < U.next_direction_change_time) := by
  dsimp only
  rw [setup_walking_ndct, update_ndct_due s sw sh t rdir2 rdelay2 rbounce hmv hdue]
  omega

/-- Witness for C8 at a concrete moving state, `now = 50000`, `t = 60000`,
delays 1000 and 2500. -/
theorem C8_schedule_in_future_witness :
    (let S := setup_walking { initAnimator with is_moving := true }
       0 0 none none 1 1000 50000
     50000 + 1000 ≤ S.next_direction_change_time ∧
       S.next_direction_change_time ≤ 50000 + 3000 ∧
       50000 < S.next_direction_change_time) ∧
    (let U := update { initAnimator with is_moving := true }
       800 600 60000 2 2500 3
     60000 + 1000 ≤ U.next_direction_change_time ∧
       U.next_direction_change_time ≤ 60000 + 3000 ∧
       60000 < U.next_direction_change_time) :=
  C8_schedule_in_future { initAnimator with is_moving := true } 0 0 none none
    1 1000 50000 800 600 60000 2 2500 3 (by norm_num) (by norm_num)
    (by norm_num) (by norm_num) rfl (by norm_num [initAnimator])

theorem update_dframes (s : AnimatorState) (sw sh : ℚ) (t a b c : Int) :
    (update s sw sh t a b c).direction_frames = s.direction_frames := by
  unfold update
  split_ifs with h
  · dsimp only
    simp [apply_ite AnimatorState.direction_frames, set_direction_dframes,
      dirStep_dframes, frameStep_dframes]
  · rfl

theorem update_fdur (s : AnimatorState) (sw sh : ℚ) (t a b c : Int) :
    (update s sw sh t a b c).frame_duration = s.frame_duration := by
  unfold update
  split_ifs with h
  · dsimp only
    simp [apply_ite AnimatorState.frame_duration, set_direction_fdur,
      dirStep_fdur, frameStep_fdur]
  · rfl

theorem dirStep_dir_self (s : AnimatorState) (t b : Int) :
    (dirStep s t s.current_direction b).current_direction =
      s.current_direction := by
  unfold dirStep; dsimp only
  split_ifs with h1 h2
  · exact absurd rfl h2
  · rfl
  · rfl

theorem update_dir_keep (s : AnimatorState) (sw sh : ℚ) (t b : Int)
    (hmv : s.is_moving = true) :
    (update s sw sh t s.current_direction b s.current_direction).current_direction = s.current_direction := by
  have hfs := frameStep_dir s t
  have hd :
      (dirStep (frameStep s t) t s.current_direction b).current_direction =
        s.current_direction := by
    conv_lhs => rw [← hfs]
    rw [dirStep_dir_self (frameStep s t) t b, hfs]
  simp only [update, hmv, if_true]
  dsimp only
  simp [apply_ite AnimatorState.current_direction, set_direction_dir, hd]

theorem update_index (s : AnimatorState) (sw sh : ℚ) (t a b c : Int)
    (hmv : s.is_moving = true) :
    (update s sw sh t a b c).current_frame_index =
      (frameStep s t).current_frame_index := by
  simp only [update, hmv, if_true]
  dsimp only
  simp [apply_ite AnimatorState.current_frame_index, set_direction_index,
    dirStep_index]

theorem update_lft (s : AnimatorState) (sw sh : ℚ) (t a b c : Int)
    (hmv : s.is_moving = true) :
    (update s sw sh t a b c).last_frame_time =
      (frameStep s t).last_frame_time := by
  simp only [update, hmv, if_true]
  dsimp only
  simp [apply_ite AnimatorState.last_frame_time, set_direction_lft,
    dirStep_lft]

theorem frameStep_advance (s : AnimatorState) (t : Int)
    (hne : (s.direction_frames s.current_direction).length ≠ 0)
    (hel : s.frame_duration ≤ t - s.last_frame_time) :
    (frameStep s t).current_frame_index =
      (s.current_frame_index + 1) %
        (s.direction_frames s.current_direction).length ∧
    (frameStep s t).last_frame_time = t := by
  unfold frameStep; dsimp only
  rw [if_pos ⟨hne, hel⟩]
  exact ⟨rfl, rfl⟩

theorem frameStep_skip (s : AnimatorState) (t : Int)
    (h : (s.direction_frames s.current_direction).length = 0 ∨
      t - s.last_frame_time < s.frame_duration) :
    (frameStep s t).current_frame_index = s.current_frame_index ∧
    (frameStep s t).last_frame_time = s.last_frame_time := by
  unfold frameStep; dsimp only
  rw [if_neg]
  · exact ⟨rfl, rfl⟩
  · rintro ⟨h1, h2⟩
    rcases h with h | h
    · exact h1 h
    · exact absurd h2 (not_le.mpr h)

/-- C5 (amended): for a moving animator, one `update` call at wall-clock
time `t` advances `current_frame_index` by exactly one modulo the frame
count of the current direction when that direction has at least one frame
and at least `frame_duration` has elapsed since `last_frame_time` (which is
then set to `t`, so consecutive advances are at least `frame_duration`
apart); in every other case the index and `last_frame_time` are unchanged.
The advance rate is therefore at most — not exactly — one per
`frame_duration` of elapsed time, since at most one advance happens per
`update` call however much time has elapsed. -/
theorem C5_frame_counter_amended (s : AnimatorState) (sw sh : ℚ)
    (t a b c : Int) (hmv : s.is_moving = true) :
    let n := (s.direction_frames s.current_direction).length
    let u := update s sw sh t a b c
    (n ≠ 0 → s.frame_duration ≤ t - s.last_frame_time →
      u.current_frame_index = (s.current_frame_index + 1) % n ∧
      u.last_frame_time = t) ∧
    (t - s.last_frame_time < s.frame_duration →
      u.current_frame_index = s.current_frame_index ∧
      u.last_frame_time = s.last_frame_time) ∧
    (n = 0 →
      u.current_frame_index = s.current_frame_index ∧
      u.last_frame_time = s.last_frame_time) := by
  dsimp only
  rw [update_index s sw sh t a b c hmv, update_lft s sw sh t a b c hmv]
  refine ⟨fun hne hel => frameStep_advance s t hne hel,
    fun hlt => frameStep_skip s t (Or.inr hlt),
    fun hz => frameStep_skip s t (Or.inl hz)⟩

/-- Witness for C5 (amended): a moving animator with five frames in
direction 0, `frame_duration = 100`, `last_frame_time = 0`, updated at
`t = 500`: the index advances from 0 to 1 and `last_frame_time` becomes
500. -/
theorem C5_frame_counter_amended_witness :
    let s := fiveFrameAnimator
    let n := (s.direction_frames s.current_direction).length
    let u := update s 800 600 500 2 2500 3
    (n ≠ 0 → s.frame_duration ≤ 500 - s.last_frame_time →
      u.current_frame_index = (s.current_frame_index + 1) % n ∧
      u.last_frame_time = 500) ∧
    (500 - s.last_frame_time < s.frame_duration →
      u.current_frame_index = s.current_frame_index ∧
      u.last_frame_time = s.last_frame_time) ∧
    (n = 0 →
      u.current_frame_index = s.current_frame_index ∧
      u.last_frame_time = s.last_frame_time) :=
  C5_frame_counter_amended fiveFrameAnimator 800 600 500 2 2500 3 rfl

/-- C5 counterexample to the claim as stated: over the interval 0..1000 ms
(which exceeds `frame_duration * frameCount = 500` ms), two `update` calls
at t = 500 and t = 1000 (with direction draws that keep direction 0)
advance the index only twice, to 2, whereas one advance per
`frame_duration` elapsed would be ten advances, i.e. index
`(0 + (1000 - 0) / 100) % 5 = 0`.  `last_frame_time` is reset to the call
time rather than stepped by `frame_duration`, so elapsed time is not
converted into advances one-for-one. -/
theorem C5_frame_counter_counterexample :
    let s := fiveFrameAnimator
    let u2 := update (update s 800 600 500 0 2500 0) 800 600 1000 0 2500 0
    u2.current_frame_index = 2 ∧
    (s.current_frame_index + ((1000 - s.last_frame_time) / s.frame_duration).toNat)
        % (s.direction_frames s.current_direction).length = 0 ∧
    u2.current_frame_index ≠
      (s.current_frame_index + ((1000 - s.last_frame_time) / s.frame_duration).toNat)
        % (s.direction_frames s.current_direction).length := by
  dsimp only
  have hsmv : fiveFrameAnimator.is_moving = true := rfl
  have hsdir : fiveFrameAnimator.current_direction = 0 := rfl
  have h1idx : (update fiveFrameAnimator 800 600 500 0 2500 0).current_frame_index = 1 := by
    rw [update_index fiveFrameAnimator 800 600 500 0 2500 0 hsmv,
      (frameStep_advance fiveFrameAnimator 500 (by decide) (by decide)).1]
    decide
  have h1lft : (update fiveFrameAnimator 800 600 500 0 2500 0).last_frame_time = 500 := by
    rw [update_lft fiveFrameAnimator 800 600 500 0 2500 0 hsmv,
      (frameStep_advance fiveFrameAnimator 500 (by decide) (by decide)).2]
  have h1mv : (update fiveFrameAnimator 800 600 500 0 2500 0).is_moving = true := by
    rw [update_moving]; exact hsmv
  have h1dir : (update fiveFrameAnimator 800 600 500 0 2500 0).current_direction = 0 := by
    conv_lhs => rw [show (0 : Int) = fiveFrameAnimator.current_direction from rfl]
    rw [update_dir_keep fiveFrameAnimator 800 600 500 2500 hsmv]
    exact hsdir
  have h1df : (update fiveFrameAnimator 800 600 500 0 2500 0).direction_frames =
      fiveFrameAnimator.direction_frames := update_dframes _ 800 600 500 0 2500 0
  have h1fd : (update fiveFrameAnimator 800 600 500 0 2500 0).frame_duration = 100 :=
    update_fdur _ 800 600 500 0 2500 0
  have h2idx :
      (update (update fiveFrameAnimator 800 600 500 0 2500 0) 800 600 1000 0 2500 0).current_frame_index = 2 := by
    rw [update_index _ 800 600 1000 0 2500 0 h1mv,
      (frameStep_advance _ 1000 (by rw [h1df, h1dir]; decide)
        (by rw [h1fd, h1lft]; decide)).1]
    rw [h1idx, h1df, h1dir]
    decide
  exact ⟨h2idx, by decide, by rw [h2idx]; decide⟩

/-- C6: in `update`, when integrating the velocity would put the position
outside `[0, screenDim - boundingBoxDim]` on either axis (here in a tick
with no scheduled direction change, so the integrated velocity is the
pre-existing one), the direction is re-drawn from the four options and the
position is clamped into bounds; the new velocity is the diagonal of the
drawn direction (never a reflection of the old velocity), and the clamp is
applied whether or not a bounce occurred. -/
theorem C6_bounce_redraws_direction_and_clamps (s : AnimatorState)
    (sw sh : ℚ) (t a b c : Int) (hmv : s.is_moving = true)
    (hnd : t < s.next_direction_change_time)
    (hc : c = 0 ∨ c = 1 ∨ c = 2 ∨ c = 3) :
    let px := s.pos_x + s.velocity_x
    let py := s.pos_y + s.velocity_y
    let out := px < 0 ∨ sw - s.max_canvas_width < px ∨
      py < 0 ∨ sh - s.max_canvas_height < py
    let u := update s sw sh t a b c
    (u.pos_x = max 0 (min px (sw - s.max_canvas_width)) ∧
     u.pos_y = max 0 (min py (sh - s.max_canvas_height))) ∧
    (out → u.velocity_x =
        (if c = 0 ∨ c = 1 then s.move_speed else -s.move_speed) ∧
      u.velocity_y =
        (if c = 1 ∨ c = 2 then s.move_speed else -s.move_speed) ∧
      u.current_direction = c) ∧
    (¬ out → u.velocity_x = s.velocity_x ∧ u.velocity_y = s.velocity_y) := by
  have hd : dirStep (frameStep s t) t a b = frameStep s t := by
    apply dirStep_not_due
    rw [frameStep_ndct]; exact hnd
  dsimp only
  simp only [update, hmv, if_true, hd]
  simp only [frameStep_pos_x, frameStep_pos_y, frameStep_vel_x,
    frameStep_vel_y, frameStep_mcw, frameStep_mch, frameStep_speed]
  by_cases hout : s.pos_x + s.velocity_x < 0 ∨
      sw - s.max_canvas_width < s.pos_x + s.velocity_x ∨
      s.pos_y + s.velocity_y < 0 ∨
      sh - s.max_canvas_height < s.pos_y + s.velocity_y
  · rw [if_pos hout]
    refine ⟨⟨?_, ?_⟩, fun _ => ?_, fun hno => absurd hout hno⟩
    · rw [set_direction_pos_x, set_direction_mcw]
    · rw [set_direction_pos_y, set_direction_mch]
    · rcases hc with rfl | rfl | rfl | rfl <;>
        simp [set_direction, set_direction_dir]
  · rw [if_neg hout]
    exact ⟨⟨rfl, rfl⟩, fun h => absurd h hout, fun _ => ⟨rfl, rfl⟩⟩

/-- Witness for C6 at `pendingChangeAnimator` (no bounce occurs; the clamp
is still applied), screen 800×600, `t = 0`, bounce draw 2. -/
theorem C6_bounce_redraws_direction_and_clamps_witness :
    let s := pendingChangeAnimator
    let px := s.pos_x + s.velocity_x
    let py := s.pos_y + s.velocity_y
    let out := px < 0 ∨ (800 : ℚ) - s.max_canvas_width < px ∨
      py < 0 ∨ (600 : ℚ) - s.max_canvas_height < py
    let u := update s 800 600 0 1 2000 2
    (u.pos_x = max 0 (min px ((800 : ℚ) - s.max_canvas_width)) ∧
     u.pos_y = max 0 (min py ((600 : ℚ) - s.max_canvas_height))) ∧
    (out → u.velocity_x =
        (if (2 : Int) = 0 ∨ (2 : Int) = 1 then s.move_speed else -s.move_speed) ∧
      u.velocity_y =
        (if (2 : Int) = 1 ∨ (2 : Int) = 2 then s.move_speed else -s.move_speed) ∧
      u.current_direction = 2) ∧
    (¬ out → u.velocity_x = s.velocity_x ∧ u.velocity_y = s.velocity_y) :=
  C6_bounce_redraws_direction_and_clamps pendingChangeAnimator 800 600 0 1
    2000 2 rfl (by decide) (by norm_num)

theorem update_pos_clamp (s : AnimatorState) (sw sh : ℚ) (t a b c : Int)
    (hmv : s.is_moving = true) (hnd : t < s.next_direction_change_time) :
    (update s sw sh t a b c).pos_x =
      max 0 (min (s.pos_x + s.velocity_x) (sw - s.max_canvas_width)) ∧
    (update s sw sh t a b c).pos_y =
      max 0 (min (s.pos_y + s.velocity_y) (sh - s.max_canvas_height)) := by
  have hd : dirStep (frameStep s t) t a b = frameStep s t := by
    apply dirStep_not_due; rw [frameStep_ndct]; exact hnd
  simp only [update, hmv, if_true, hd]
  simp only [frameStep_pos_x, frameStep_pos_y, frameStep_vel_x,
    frameStep_vel_y, frameStep_mcw, frameStep_mch]
  constructor
  · split_ifs with h
    · rw [set_direction_pos_x, set_direction_mcw]
    · rfl
  · split_ifs with h
    · rw [set_direction_pos_y, set_direction_mch]
    · rfl

theorem clamp_mem (p lim : ℚ) (h : 0 ≤ lim) :
    0 ≤ max 0 (min p lim) ∧ max 0 (min p lim) ≤ lim :=
  ⟨le_max_left 0 _, max_le h (min_le_right p lim)⟩

theorem update_pos_bounds (s : AnimatorState) (sw sh : ℚ) (t a b c : Int)
    (hmv : s.is_moving = true) (hw : 0 ≤ sw - s.max_canvas_width)
    (hh : 0 ≤ sh - s.max_canvas_height) :
    let u := update s sw sh t a b c
    (0 ≤ u.pos_x ∧ u.pos_x ≤ sw - s.max_canvas_width) ∧
    (0 ≤ u.pos_y ∧ u.pos_y ≤ sh - s.max_canvas_height) := by
  dsimp only
  simp only [update, hmv, if_true]
  simp only [apply_ite AnimatorState.max_canvas_width,
    apply_ite AnimatorState.max_canvas_height, set_direction_mcw,
    set_direction_mch, dirStep_mcw, dirStep_mch, frameStep_mcw,
    frameStep_mch, ite_self]
  exact ⟨clamp_mem _ _ hw, clamp_mem _ _ hh⟩

theorem runUpdates_cons (s : AnimatorState) (sw sh : ℚ) (e : UpdEvent)
    (rest : List UpdEvent) :
    runUpdates s sw sh (e :: rest) =
      runUpdates (update s sw sh e.time e.rdir e.rdelay e.rbounce) sw sh
        rest := rfl

/-- Positions stay inside the clamp box along any update sequence, provided
the box is well-formed (bounding box no larger than the screen). -/
theorem runUpdates_bounds (sw sh : ℚ) (evs : List UpdEvent)
    (s : AnimatorState) (hmv : s.is_moving = true)
    (hw : 0 ≤ sw - s.max_canvas_width) (hh : 0 ≤ sh - s.max_canvas_height)
    (hx : 0 ≤ s.pos_x ∧ s.pos_x ≤ sw - s.max_canvas_width)
    (hy : 0 ≤ s.pos_y ∧ s.pos_y ≤ sh - s.max_canvas_height) :
    (0 ≤ (runUpdates s sw sh evs).pos_x ∧
      (runUpdates s sw sh evs).pos_x ≤ sw - s.max_canvas_width) ∧
    (0 ≤ (runUpdates s sw sh evs).pos_y ∧
      (runUpdates s sw sh evs).pos_y ≤ sh - s.max_canvas_height) := by
  induction evs generalizing s with
  | nil => exact ⟨hx, hy⟩
  | cons e rest ih =>
    rw [runUpdates_cons]
    have hmcw := update_mcw s sw sh e.time e.rdir e.rdelay e.rbounce
    have hmch := update_mch s sw sh e.time e.rdir e.rdelay e.rbounce
    have hb := update_pos_bounds s sw sh e.time e.rdir e.rdelay e.rbounce
      hmv hw hh
    have hres := ih (update s sw sh e.time e.rdir e.rdelay e.rbounce)
      (by rw [update_moving]; exact hmv)
      (by rw [hmcw]; exact hw) (by rw [hmch]; exact hh)
      (by rw [hmcw]; exact hb.1) (by rw [hmch]; exact hb.2)
    rw [hmcw, hmch] at hres
    exact hres

theorem setup_walking_pos_x (s : AnimatorState) (rx ry : ℚ)
    (sx sy : Option ℚ) (rdir rdelay now : Int) :
    (setup_walking s rx ry sx sy rdir rdelay now).pos_x = sx.getD rx := by
  unfold setup_walking; dsimp only
  rw [set_direction_pos_x]

theorem setup_walking_pos_y (s : AnimatorState) (rx ry : ℚ)
    (sx sy : Option ℚ) (rdir rdelay now : Int) :
    (setup_walking s rx ry sx sy rdir rdelay now).pos_y = sy.getD ry := by
  unfold setup_walking; dsimp only
  rw [set_direction_pos_y]

theorem setup_walking_moving (s : AnimatorState) (rx ry : ℚ)
    (sx sy : Option ℚ) (rdir rdelay now : Int) :
    (setup_walking s rx ry sx sy rdir rdelay now).is_moving = true := rfl

theorem setup_walking_mcw (s : AnimatorState) (rx ry : ℚ)
    (sx sy : Option ℚ) (rdir rdelay now : Int) :
    (setup_walking s rx ry sx sy rdir rdelay now).max_canvas_width =
      s.max_canvas_width := by
  unfold setup_walking; dsimp only
  rw [set_direction_mcw]

theorem setup_walking_mch (s : AnimatorState) (rx ry : ℚ)
    (sx sy : Option ℚ) (rdir rdelay now : Int) :
    (setup_walking s rx ry sx sy rdir rdelay now).max_canvas_height =
      s.max_canvas_height := by
  unfold setup_walking; dsimp only
  rw [set_direction_mch]

/-- C1 (amended): after `setup_walking` with a random start position (the
`randint(0, screenDim - maxCanvasDim)` contract bounds `rx`, `ry`, which in
particular forces the bounding box to fit on the screen) and any finite
sequence of `update(screenW, screenH)` calls, the position stays inside
`[0, screenW - max_canvas_width] × [0, screenH - max_canvas_height]`.  The
claim's "unconditional" version is false: when
`max_canvas_width > screenW` the clamp floors the position at 0, which
lies above the (negative) upper bound `screenW - max_canvas_width`. -/
theorem C1_clamp_invariant_amended (s : AnimatorState) (sw sh rx ry : ℚ)
    (rdir rdelay now : Int) (evs : List UpdEvent)
    (hx : 0 ≤ rx ∧ rx ≤ sw - s.max_canvas_width)
    (hy : 0 ≤ ry ∧ ry ≤ sh - s.max_canvas_height) :
    let r := runUpdates (setup_walking s rx ry none none rdir rdelay now)
      sw sh evs
    (0 ≤ r.pos_x ∧ r.pos_x ≤ sw - s.max_canvas_width) ∧
    (0 ≤ r.pos_y ∧ r.pos_y ≤ sh - s.max_canvas_height) := by
  dsimp only
  have hmcw := setup_walking_mcw s rx ry none none rdir rdelay now
  have hmch := setup_walking_mch s rx ry none none rdir rdelay now
  have hres := runUpdates_bounds sw sh evs
    (setup_walking s rx ry none none rdir rdelay now)
    (setup_walking_moving s rx ry none none rdir rdelay now)
    (by rw [hmcw]; exact le_trans hx.1 hx.2)
    (by rw [hmch]; exact le_trans hy.1 hy.2)
    (by rw [hmcw, setup_walking_pos_x]; exact hx)
    (by rw [hmch, setup_walking_pos_y]; exact hy)
  rw [hmcw, hmch] at hres
  exact hres

/-- Witness for C1 (amended): a 10×10 peep on an 800×600 screen placed at
(100, 200), one update at t = 0. -/
theorem C1_clamp_invariant_amended_witness :
    let r := runUpdates (setup_walking oversizedAnimator 100 200 none none
      0 1000 0) 800 600 [⟨0, 0, 1500, 0⟩]
    (0 ≤ r.pos_x ∧ r.pos_x ≤ 800 - oversizedAnimator.max_canvas_width) ∧
    (0 ≤ r.pos_y ∧ r.pos_y ≤ 600 - oversizedAnimator.max_canvas_height) :=
  C1_clamp_invariant_amended oversizedAnimator 800 600 100 200 0 1000 0
    [⟨0, 0, 1500, 0⟩]
    (by refine ⟨by norm_num, ?_⟩
        rw [show oversizedAnimator.max_canvas_width = 10 from rfl]; norm_num)
    (by refine ⟨by norm_num, ?_⟩
        rw [show oversizedAnimator.max_canvas_height = 10 from rfl]; norm_num)

/-- C1 counterexample to the unconditional claim: with a 10×10 bounding box
and a 5×5 screen, after `setup_walking` at given start (0,0) and one
`update(5,5)` the position is clamped to 0, yet
`screenW - max_canvas_width = -5 < 0`, so `pos_x ≤ screenW -
max_canvas_width` fails. -/
theorem C1_clamp_invariant_counterexample :
    let u := runUpdates (setup_walking oversizedAnimator 0 0 (some 0)
      (some 0) 0 1000 0) 5 5 [⟨0, 0, 1500, 0⟩]
    u.pos_x = 0 ∧ ¬ (u.pos_x ≤ 5 - oversizedAnimator.max_canvas_width) := by
  dsimp only
  rw [show runUpdates (setup_walking oversizedAnimator 0 0 (some 0) (some 0)
    0 1000 0) 5 5 [⟨0, 0, 1500, 0⟩] = update (setup_walking oversizedAnimator
    0 0 (some 0) (some 0) 0 1000 0) 5 5 0 0 1500 0 from rfl]
  have hmv : (setup_walking oversizedAnimator 0 0 (some 0) (some 0) 0 1000 0).is_moving = true := rfl
  have hnd : (0 : Int) < (setup_walking oversizedAnimator 0 0 (some 0) (some 0) 0 1000 0).next_direction_change_time := by
    rw [setup_walking_ndct]; decide
  have hp := (update_pos_clamp (setup_walking oversizedAnimator 0 0 (some 0)
    (some 0) 0 1000 0) 5 5 0 0 1500 0 hmv hnd).1
  rw [hp]
  rw [show (setup_walking oversizedAnimator 0 0 (some 0) (some 0) 0 1000 0).pos_x = 0 from rfl]
  rw [show (setup_walking oversizedAnimator 0 0 (some 0) (some 0) 0 1000 0).velocity_x = 1 from rfl]
  rw [show (setup_walking oversizedAnimator 0 0 (some 0) (some 0) 0 1000 0).max_canvas_width = 10 from rfl]
  rw [show oversizedAnimator.max_canvas_width = 10 from rfl]
  norm_num

theorem dirStep_dir_due (s : AnimatorState) (t a b : Int)
    (h : s.next_direction_change_time ≤ t) :
    (dirStep s t a b).current_direction = a := by
  unfold dirStep; dsimp only
  rw [if_pos h]
  split_ifs with hne
  · rw [set_direction_dir]
  · push_neg at hne
    exact hne.symm

theorem update_dir_same_draws (s : AnimatorState) (sw sh : ℚ)
    (t a b : Int) (hmv : s.is_moving = true)
    (hdue : s.next_direction_change_time ≤ t) :
    (update s sw sh t a b a).current_direction = a := by
  have hd : (dirStep (frameStep s t) t a b).current_direction = a :=
    dirStep_dir_due (frameStep s t) t a b (by rw [frameStep_ndct]; exact hdue)
  simp only [update, hmv, if_true]
  simp [apply_ite AnimatorState.current_direction, set_direction_dir, hd]

/-- C2 (refuted; the claim describes the intended safety property and the
code violates it): after loading frames where direction 0 has two frames
and direction 1 has one, `setup_walking` at t = 0 in direction 0 and a
single `update` at t = 1000 that both advances the frame (to index 1) and
switches direction to 1 leaves `current_frame_index = 1` while the current
direction's frame list has length 1.  `get_current_frame` then evaluates
`frames[1]` on a one-element list — an `IndexError` crash, modelled here by
the `none` result. -/
theorem C2_frame_index_out_of_range :
    let s1 : AnimatorState :=
      setup_walking unevenAnimator 0 0 (some 0) (some 0) 0 1000 0
    let u := update s1 800 600 1000 1 2000 1
    (u.direction_frames u.current_direction) ≠ [] ∧
    ¬ (u.current_frame_index <
        (u.direction_frames u.current_direction).length) ∧
    get_current_frame u = none := by
  dsimp only
  have hmv : (setup_walking unevenAnimator 0 0 (some 0) (some 0) 0 1000 0).is_moving = true := rfl
  have hdue : (setup_walking unevenAnimator 0 0 (some 0) (some 0) 0 1000 0).next_direction_change_time ≤ 1000 := by
    rw [setup_walking_ndct]; decide
  have hdir : (update (setup_walking unevenAnimator 0 0 (some 0) (some 0) 0 1000 0) 800 600 1000 1 2000 1).current_direction = 1 :=
    update_dir_same_draws _ 800 600 1000 1 2000 hmv hdue
  have hdf := update_dframes (setup_walking unevenAnimator 0 0 (some 0)
    (some 0) 0 1000 0) 800 600 1000 1 2000 1
  have hidx : (update (setup_walking unevenAnimator 0 0 (some 0) (some 0) 0 1000 0) 800 600 1000 1 2000 1).current_frame_index = 1 := by
    rw [update_index _ 800 600 1000 1 2000 1 hmv,
      (frameStep_advance _ 1000 (by decide) (by decide)).1]
    decide
  refine ⟨?_, ?_, ?_⟩
  · rw [hdf, hdir]; decide
  · rw [hdf, hdir, hidx]; decide
  · unfold get_current_frame
    dsimp only
    rw [hdf, hdir, hidx]
    decide

/-- C7 (amended): each fallback `update` adds the current velocity to the
position and then inverts a velocity component exactly when that axis's
post-move position violates its bound (`x < 0` or `x + 64 > screenW`, with
the hard-coded box size 64); in particular no inversion happens on a tick
whose post-move position respects both bounds of that axis.  This
coincides with "exactly once per boundary crossing" only while the peep
stays inside `[0, screenDim - 64]`; a peep already out of bounds has its
component re-inverted every tick without any crossing (see the
counterexample). -/
theorem C7_fallback_bounce_amended (p : PeepState) (sw sh t a b c : Int)
    (hf : p.use_fallback = true) :
    let q := peep_update p sw sh t a b c
    q.x = p.x + p.dx ∧ q.y = p.y + p.dy ∧
    q.dx = (if p.x + p.dx < 0 ∨ sw < p.x + p.dx + 64 then -p.dx else p.dx) ∧
    q.dy = (if p.y + p.dy < 0 ∨ sh < p.y + p.dy + 64 then -p.dy else p.dy) ∧
    (0 ≤ p.x + p.dx ∧ p.x + p.dx + 64 ≤ sw → q.dx = p.dx) ∧
    (0 ≤ p.y + p.dy ∧ p.y + p.dy + 64 ≤ sh → q.dy = p.dy) := by
  dsimp only
  simp only [peep_update, hf, if_true]
  refine ⟨trivial, trivial, trivial, trivial, fun h => ?_, fun h => ?_⟩
  · have hn : ¬ (p.x + p.dx < 0 ∨ sw < p.x + p.dx + 64) := by omega
    rw [if_neg hn]
  · have hn : ¬ (p.y + p.dy < 0 ∨ sh < p.y + p.dy + 64) := by omega
    rw [if_neg hn]

/-- Witness for C7 (amended) at `insideFallbackPeep` on an 800×600
screen. -/
theorem C7_fallback_bounce_amended_witness :
    let q := peep_update insideFallbackPeep 800 600 0 0 0 0
    q.x = insideFallbackPeep.x + insideFallbackPeep.dx ∧
    q.y = insideFallbackPeep.y + insideFallbackPeep.dy ∧
    q.dx = (if insideFallbackPeep.x + insideFallbackPeep.dx < 0 ∨
        (800 : Int) < insideFallbackPeep.x + insideFallbackPeep.dx + 64
      then -insideFallbackPeep.dx else insideFallbackPeep.dx) ∧
    q.dy = (if insideFallbackPeep.y + insideFallbackPeep.dy < 0 ∨
        (600 : Int) < insideFallbackPeep.y + insideFallbackPeep.dy + 64
      then -insideFallbackPeep.dy else insideFallbackPeep.dy) ∧
    (0 ≤ insideFallbackPeep.x + insideFallbackPeep.dx ∧
        insideFallbackPeep.x + insideFallbackPeep.dx + 64 ≤ 800 →
      q.dx = insideFallbackPeep.dx) ∧
    (0 ≤ insideFallbackPeep.y + insideFallbackPeep.dy ∧
        insideFallbackPeep.y + insideFallbackPeep.dy + 64 ≤ 600 →
      q.dy = insideFallbackPeep.dy) :=
  C7_fallback_bounce_amended insideFallbackPeep 800 600 0 0 0 0 rfl

/-- C7 counterexample to "inverted exactly once per boundary crossing and
never on a non-crossing tick": a fallback peep at `x = 799` (a legal
initial draw) on an 800-wide screen flips `dx` on every tick while no
boundary is ever crossed — on the second tick the coordinate moves from
800 to 799, crossing neither bound, yet `dx` is inverted again. -/
theorem C7_fallback_bounce_counterexample :
    let p1 := peep_update edgeFallbackPeep 800 600 0 0 0 0
    let p2 := peep_update p1 800 600 0 0 0 0
    p1.x = 800 ∧ p1.dx = -1 ∧ p2.x = 799 ∧ p2.dx = 1 ∧
    p2.dx = -p1.dx ∧ ¬ crossesAxis p1.x p2.x 800 := by
  decide

/-- C10: a `DesktopPeep` is constructed in fallback mode exactly when
metadata loading fails or some referenced sprite sheet fails to load
(`load_spritesheet` returns failure as soon as any sheet is missing, i.e.
it succeeds iff every referenced sheet loads); and neither `setup` nor
`update` ever changes the chosen representation afterwards. -/
theorem C10_fallback_choice_fixed (file : Option (List (List CsvField)))
    (avail : Int → Bool) (mkFrame : SpriteInfo → Frame)
    (choice : List Int → Int) (ids : List Int) (rx ry rdx rdy : Int)
    (q : PeepState) (sw sh t a b c : Int) (srx sry : ℚ)
    (rdir rdelay now : Int) :
    (let p := peepInit file avail mkFrame choice ids rx ry rdx rdy
     p.use_fallback = false ↔
       ((load_sprite_info file).2 = true ∧
        ∀ pr ∈ (load_sprite_info file).1, avail pr.2.sheet_num = true)) ∧
    (peep_update q sw sh t a b c).use_fallback = q.use_fallback ∧
    (peep_setup q srx sry rdir rdelay now).use_fallback = q.use_fallback := by
  refine ⟨?_, ?_, ?_⟩
  · dsimp only
    unfold peepInit
    dsimp only
    split_ifs with h
    · simp only [Bool.and_eq_true] at h
      simp only [true_iff]
      refine ⟨h.1, ?_⟩
      have := h.2
      unfold load_spritesheet at this
      intro pr hpr
      exact List.all_eq_true.mp this pr hpr
    · simp only [Bool.and_eq_true] at h
      constructor
      · intro hfalse
        cases hfalse
      · intro ⟨h1, h2⟩
        exact absurd ⟨h1, List.all_eq_true.mpr fun pr hpr => h2 pr hpr⟩ h
  · unfold peep_update
    split_ifs <;> rfl
  · unfold peep_setup
    split_ifs <;> rfl

/-- Witness for C10 with a one-row metadata file whose sheet is available,
and a fallback peep for the persistence conjuncts. -/
theorem C10_fallback_choice_fixed_witness :
    (let p := peepInit (some [validRow]) (fun _ => true) dimsFrame
      (fun l => l.headD 0) [100] 0 0 1 1
     p.use_fallback = false ↔
       ((load_sprite_info (some [validRow])).2 = true ∧
        ∀ pr ∈ (load_sprite_info (some [validRow])).1,
          (fun _ : Int => true) pr.2.sheet_num = true)) ∧
    (peep_update insideFallbackPeep 800 600 0 0 0 0).use_fallback =
      insideFallbackPeep.use_fallback ∧
    (peep_setup insideFallbackPeep 0 0 0 1000 0).use_fallback =
      insideFallbackPeep.use_fallback :=
  C10_fallback_choice_fixed (some [validRow]) (fun _ => true) dimsFrame
    (fun l => l.headD 0) [100] 0 0 1 1 insideFallbackPeep 800 600 0 0 0 0
    0 0 0 1000 0

/-! ### Lemmas about the metadata loader -/

theorem processRow_valid_iff (m : List (Int × SpriteInfo))
    (row : List CsvField) :
    (rowValid row = true → ∃ e, processRow m row = e :: m ∧
      0 < e.2.width ∧ e.2.width < 4096 ∧ 0 < e.2.height ∧
      e.2.height < 4096) ∧
    (rowValid row = false → processRow m row = m) := by
  unfold processRow rowValid
  rcases hrow : row.head? with _ | f0
  · exact ⟨fun h => absurd h (by simp), fun _ => rfl⟩
  · dsimp only
    by_cases h1 : f0.startsHash = true
    · rw [if_pos h1, if_pos h1]
      exact ⟨fun h => absurd h (by simp), fun _ => rfl⟩
    · rw [if_neg h1, if_neg h1]
      by_cases h2 : 11 ≤ row.length
      · rw [if_pos h2, if_pos h2]
        split
        · rename_i sn si sid w hgt xo yo sx sy heq0 heq1 heq2 heq4 heq5
            heq6 heq7 heq9 heq10
          constructor
          · intro hb
            rw [if_pos (of_decide_eq_true hb)]
            have hbp := of_decide_eq_true hb
            exact ⟨_, rfl, hbp.1, hbp.2.1, hbp.2.2.1, hbp.2.2.2⟩
          · intro hb
            rw [if_neg (of_decide_eq_false hb)]
        · exact ⟨fun h => absurd h (by simp), fun _ => rfl⟩
      · rw [if_neg h2, if_neg h2]
        exact ⟨fun h => absurd h (by simp), fun _ => rfl⟩

theorem foldl_bounds (rows : List (List CsvField)) :
    ∀ m : List (Int × SpriteInfo),
    (∀ e ∈ m, 0 < e.2.width ∧ e.2.width < 4096 ∧ 0 < e.2.height ∧
      e.2.height < 4096) →
    ∀ e ∈ rows.foldl processRow m, 0 < e.2.width ∧ e.2.width < 4096 ∧
      0 < e.2.height ∧ e.2.height < 4096 := by
  induction rows with
  | nil => intro m hm; simpa using hm
  | cons r rest ih =>
    intro m hm
    rw [List.foldl_cons]
    apply ih
    by_cases hv : rowValid r = true
    · obtain ⟨e, he, hb⟩ := (processRow_valid_iff m r).1 hv
      rw [he]
      intro x hx
      rcases List.mem_cons.mp hx with rfl | hx
      · exact hb
      · exact hm x hx
    · rw [(processRow_valid_iff m r).2 (by simpa using hv)]
      exact hm

theorem foldl_ne_nil_iff (rows : List (List CsvField)) :
    ∀ m : List (Int × SpriteInfo),
    (rows.foldl processRow m ≠ [] ↔
      m ≠ [] ∨ ∃ row ∈ rows, rowValid row = true) := by
  induction rows with
  | nil => intro m; simp
  | cons r rest ih =>
    intro m
    rw [List.foldl_cons, ih (processRow m r)]
    by_cases hv : rowValid r = true
    · obtain ⟨e, he, -⟩ := (processRow_valid_iff m r).1 hv
      rw [he]
      simp only [List.mem_cons]
      constructor
      · intro _
        exact Or.inr ⟨r, Or.inl rfl, hv⟩
      · intro _
        exact Or.inl (List.cons_ne_nil e m)
    · rw [(processRow_valid_iff m r).2 (by simpa using hv)]
      simp only [List.mem_cons]
      constructor
      · rintro (h | ⟨row, hmem, hok⟩)
        · exact Or.inl h
        · exact Or.inr ⟨row, Or.inr hmem, hok⟩
      · rintro (h | ⟨row, hmem, hok⟩)
        · exact Or.inl h
        · rcases hmem with rfl | hmem
          · exact absurd hok hv
          · exact Or.inr ⟨row, hmem, hok⟩

/-- C4 (amended): `load_sprite_info` skips — without aborting — every row
that is a comment, has fewer than 11 fields, fails integer parsing on one
of the nine fields the loader reads (indices 0,1,2,4,5,6,7,9,10; the claim
said "a non-integer field", but the unused fields 3 and 8 are never parsed
and cannot disqualify a row — see the counterexample), or has width/height
outside (0, 4096); every entry of the resulting table has width and height
strictly inside (0, 4096); and it returns success iff at least one valid
row was parsed, failing on a missing file. -/
theorem C4_load_sprite_info_amended (rows : List (List CsvField)) :
    (∀ m row, rowValid row = false → processRow m row = m) ∧
    (∀ e ∈ (load_sprite_info (some rows)).1,
      0 < e.2.width ∧ e.2.width < 4096 ∧ 0 < e.2.height ∧
        e.2.height < 4096) ∧
    ((load_sprite_info (some rows)).2 = true ↔
      ∃ row ∈ rows, rowValid row = true) ∧
    load_sprite_info none = ([], false) := by
  refine ⟨fun m row h => (processRow_valid_iff m row).2 h, ?_, ?_, rfl⟩
  · intro e he
    exact foldl_bounds rows [] (by simp) e he
  · unfold load_sprite_info
    dsimp only
    rw [decide_eq_true_iff]
    rw [List.length_pos_iff_ne_nil, foldl_ne_nil_iff rows []]
    simp

/-- Witness for C4 (amended) on concrete inputs: the comment row is
skipped, the one-valid-row file loads successfully, and a missing file
fails. -/
theorem C4_load_sprite_info_amended_witness :
    processRow [] commentRow = [] ∧
    ((load_sprite_info (some [validRow])).2 = true ↔
      ∃ row ∈ [validRow], rowValid row = true) ∧
    load_sprite_info none = ([], false) :=
  ⟨(C4_load_sprite_info_amended [validRow]).1 [] commentRow rfl,
   (C4_load_sprite_info_amended [validRow]).2.2.1,
   (C4_load_sprite_info_amended [validRow]).2.2.2⟩

/-- C4 counterexample to "skips every row that has a non-integer field":
`badFieldRow` has non-integer fields at (unused) indices 3 and 8, yet the
loader accepts it — the resulting table is non-empty and the load
succeeds. -/
theorem C4_load_sprite_info_counterexample :
    fieldInt badFieldRow 3 = none ∧ fieldInt badFieldRow 8 = none ∧
    (load_sprite_info (some [badFieldRow])).1 ≠ [] ∧
    (load_sprite_info (some [badFieldRow])).2 = true := by
  refine ⟨rfl, rfl, ?_, rfl⟩
  decide

/-! ### Lemmas about the Python list maximum -/

theorem foldl_max_le (l : List ℚ) (a : ℚ) :
    a ≤ l.foldl max a ∧ ∀ x ∈ l, x ≤ l.foldl max a := by
  induction l generalizing a with
  | nil => exact ⟨le_refl a, by simp⟩
  | cons y l ih =>
    refine ⟨le_trans (le_max_left a y) (ih (max a y)).1, ?_⟩
    intro x hx
    rcases List.mem_cons.mp hx with rfl | hx
    · exact le_trans (le_max_right a x) (ih (max a x)).1
    · exact (ih (max a y)).2 x hx

theorem foldl_max_mem (l : List ℚ) (a : ℚ) :
    l.foldl max a = a ∨ l.foldl max a ∈ l := by
  induction l generalizing a with
  | nil => exact Or.inl rfl
  | cons y l ih =>
    rw [List.foldl_cons]
    rcases ih (max a y) with h | h
    · rw [h]
      rcases max_choice a y with h2 | h2
      · exact Or.inl h2
      · exact Or.inr (by rw [h2]; exact List.mem_cons_self y l)
    · exact Or.inr (List.mem_cons_of_mem y h)

theorem pyMax_spec (l : List ℚ) :
    (l = [] → pyMax l = 0) ∧ (∀ x ∈ l, x ≤ pyMax l) ∧
    (l ≠ [] → pyMax l ∈ l) := by
  cases l with
  | nil => exact ⟨fun _ => rfl, by simp, fun h => absurd rfl h⟩
  | cons x rest =>
    refine ⟨fun h => absurd h (by simp), ?_, fun _ => ?_⟩
    · intro y hy
      rcases List.mem_cons.mp hy with rfl | hy
      · exact (foldl_max_le rest y).1
      · exact (foldl_max_le rest x).2 y hy
    · show rest.foldl max x ∈ x :: rest
      rcases foldl_max_mem rest x with h | h
      · rw [h]; exact List.mem_cons_self x rest
      · exact List.mem_cons_of_mem x h

theorem pyMax_attained (l : List Frame) (f : Frame → ℚ) (h : l ≠ []) :
    ∃ fr ∈ l, pyMax (l.map f) = f fr := by
  have hm := (pyMax_spec (l.map f)).2.2 (mt List.map_eq_nil_iff.mp h)
  obtain ⟨fr, hfr, heq⟩ := List.mem_map.mp hm
  exact ⟨fr, hfr, heq.symm⟩

/-- C3: `load_direction_frames` selects the base id from the candidate
list; for each direction `d` in 0..3 the frames present are exactly those
of the slots `base + d + i*4` for `i < frames_per_direction` that resolve
in the metadata table to an info whose sheet is in the sheet cache (absent
ids or sheets yield no frame); and `max_canvas_width`/`max_canvas_height`
are the maxima of the loaded frames' widths/heights, 0 when no frame
loaded. -/
theorem C3_load_direction_frames (details : List (Int × SpriteInfo))
    (sheets : Int → Bool) (mkFrame : SpriteInfo → Frame)
    (choice : List Int → Int) (ids : List Int) (fpd : Nat)
    (hchoice : ∀ l : List Int, l ≠ [] → choice l ∈ l) (hids : ids ≠ []) :
    let L := load_direction_frames details sheets mkFrame choice ids fpd
    let base := choice ids
    let allFrames := L.1 0 ++ L.1 1 ++ L.1 2 ++ L.1 3
    base ∈ ids ∧
    (∀ d : Int, 0 ≤ d → d < 4 → ∀ fr : Frame,
      (fr ∈ L.1 d ↔ ∃ i : Nat, i < fpd ∧ ∃ info : SpriteInfo,
        details.lookup (base + d + (i : Int) * 4) = some info ∧
        sheets info.sheet_num = true ∧ fr = mkFrame info)) ∧
    (allFrames = [] → L.2.1 = 0 ∧ L.2.2 = 0) ∧
    (∀ fr ∈ allFrames, (fr.width : ℚ) ≤ L.2.1 ∧ (fr.height : ℚ) ≤ L.2.2) ∧
    (allFrames ≠ [] →
      (∃ fr ∈ allFrames, L.2.1 = (fr.width : ℚ)) ∧
      (∃ fr ∈ allFrames, L.2.2 = (fr.height : ℚ))) := by
  dsimp only [load_direction_frames]
  refine ⟨hchoice ids hids, ?_, ?_, ?_, ?_⟩
  · intro d hd0 hd4 fr
    rw [if_pos ⟨hd0, hd4⟩]
    unfold framesFor
    rw [List.mem_filterMap]
    constructor
    · rintro ⟨i, hi, hf⟩
      rw [List.mem_range] at hi
      refine ⟨i, hi, ?_⟩
      rcases hlk : details.lookup (choice ids + d + (i : Int) * 4)
        with _ | info
      · rw [hlk] at hf; cases hf
      · rw [hlk] at hf
        by_cases hsh : sheets info.sheet_num = true
        · refine ⟨info, rfl, hsh, ?_⟩
          simp only [hsh, if_true] at hf
          exact (Option.some.inj hf).symm
        · simp only [Bool.not_eq_true] at hsh
          simp only [hsh] at hf
          cases hf
    · rintro ⟨i, hi, info, hlk, hsh, rfl⟩
      refine ⟨i, List.mem_range.mpr hi, ?_⟩
      rw [hlk]
      simp only [hsh, if_true]
  · intro hall
    rw [hall]
    exact ⟨rfl, rfl⟩
  · intro fr hfr
    exact ⟨(pyMax_spec _).2.1 _ (List.mem_map_of_mem _ hfr),
      (pyMax_spec _).2.1 _ (List.mem_map_of_mem _ hfr)⟩
  · intro hne
    exact ⟨pyMax_attained _ _ hne, pyMax_attained _ _ hne⟩

/-- Witness for C3 at `wideSpriteDetails`, all sheets available, base ids
`[100]`, five frames per direction. -/
theorem C3_load_direction_frames_witness :
    let L := load_direction_frames wideSpriteDetails (fun _ => true)
      dimsFrame (fun l => l.headD 0) [100] 5
    let base := (fun l : List Int => l.headD 0) [100]
    let allFrames := L.1 0 ++ L.1 1 ++ L.1 2 ++ L.1 3
    base ∈ [100] ∧
    (∀ d : Int, 0 ≤ d → d < 4 → ∀ fr : Frame,
      (fr ∈ L.1 d ↔ ∃ i : Nat, i < 5 ∧ ∃ info : SpriteInfo,
        wideSpriteDetails.lookup (base + d + (i : Int) * 4) = some info ∧
        (fun _ : Int => true) info.sheet_num = true ∧ fr = dimsFrame info)) ∧
    (allFrames = [] → L.2.1 = 0 ∧ L.2.2 = 0) ∧
    (∀ fr ∈ allFrames, (fr.width : ℚ) ≤ L.2.1 ∧ (fr.height : ℚ) ≤ L.2.2) ∧
    (allFrames ≠ [] →
      (∃ fr ∈ allFrames, L.2.1 = (fr.width : ℚ)) ∧
      (∃ fr ∈ allFrames, L.2.2 = (fr.height : ℚ))) :=
  C3_load_direction_frames wideSpriteDetails (fun _ => true) dimsFrame
    (fun l => l.headD 0) [100] 5
    (fun l hl => by
      cases l with
      | nil => exact absurd rfl hl
      | cons x xs => exact List.mem_cons_self x xs)
    (by simp)

end InvasionRCT2
